import Mathlib

/-!
Verification of the `automake-maker` fragment generator.

The repository consists of two Python files, `maker.py` (the fragment
renderer and git helpers) and `implementation.py` (the tree walker and
orchestrator).  This file gives a shallow embedding of the functions the
claims are about.  Python strings are embedded as `List Char` (called
`Str` below); the filesystem, the current working directory and the git
oracle are explicit parameters.  Every definition is translated directly
from the source; where a definition mirrors a local variable of a source
function (for instance the `only_header_files` list of `make_include`)
the doc comment says which one.
-/

set_option maxRecDepth 40000

/-- Python strings, embedded as lists of characters. -/
abbrev Str := List Char

/-- Python `s.replace(old, new)` for single-character `old` and `new`,
which is a character-wise map.  `maker.py` uses it as
`libname.replace('-', '_')` and `includedir.replace('/', '_')`. -/
def pyReplaceChar (old new : Char) (s : Str) : Str :=
  s.map (fun c => if c = old then new else c)

/-- Python's substring test `pat in s`. -/
def pyIn (pat s : Str) : Bool :=
  decide (pat <:+: s)

/-- Python `s.endswith(suffix)`. -/
def pyEndsWith (s pat : Str) : Bool :=
  decide (pat <:+ s)

/-- Python `os.path.join(a, b)` for a single pair of POSIX path
components: an absolute `b` wins, otherwise `b` is appended to `a`,
inserting a slash unless `a` is empty or already ends in one. -/
def osPathJoin (a b : Str) : Str :=
  if b.head? = some '/' then b
  else if a = [] ∨ a.getLast? = some '/' then a ++ b
  else a ++ '/' :: b

/-- The part of a POSIX path after the last slash (the `tail` computed by
`os.path.split`, which is also `os.path.basename`). -/
def osPathSplitTail (p : Str) : Str :=
  (p.reverse.takeWhile (fun c => c ≠ '/')).reverse

/-- Strip trailing slashes, as `os.path.split` does on the head part. -/
def rstripSlash (s : Str) : Str :=
  (s.reverse.dropWhile (fun c => c = '/')).reverse

/-- The part of a POSIX path up to and including the last slash. -/
def osPathSplitHeadRaw (p : Str) : Str :=
  p.take (p.length - (osPathSplitTail p).length)

/-- The `head` component of Python `os.path.split(p)`: everything before
the last slash, with trailing slashes stripped unless the head consists
of slashes only. -/
def osPathSplitHead (p : Str) : Str :=
  let head := osPathSplitHeadRaw p
  if head = [] ∨ head.all (fun c => c = '/') then head else rstripSlash head

/-- `os.path.basename(p)`. -/
def os_path_basename (p : Str) : Str := osPathSplitTail p

/-! ## maker.py: spacing and separators -/

/-- `maker.horizontal_space()`. -/
def horizontal_space : Str := "\n\n".data

/-- `maker.vertical_space()`: the four-space indent used for targets. -/
def vertical_space : Str := "    ".data

/-- `maker.horizontal_separator()`: a `#`, 79 dashes, and a `#`. -/
def horizontal_separator : Str :=
  '#' :: List.replicate 79 '-' ++ ['#']

/-- `maker.horizontal_divide()`. -/
def horizontal_divide : Str :=
  horizontal_space ++ horizontal_separator ++ horizontal_space

/-! ## maker.py: basic_maker_string -/

/-- One iteration of the loop body of `basic_maker_string`: indent, the
target, and the continuation marker unless the target *equals* the last
element of the list (the source compares `target != targets[-1]` by
value, with `targets[-1]` evaluated on the original list). -/
def bms_entry (last? : Option Str) (t : Str) : Str :=
  vertical_space ++ t ++ (if some t = last? then [] else "\\\n".data)

/-- `maker.basic_maker_string(variable, operator, targets)`: the header
line `variable operator \` followed by the loop over the targets. -/
def basic_maker_string (var operator : Str) (targets : List Str) : Str :=
  var ++ " ".data ++ operator ++ " \\\n".data
    ++ (targets.map (bms_entry targets.getLast?)).flatten

/-! ## maker.py: higher-level helpers -/

/-- Python `**kwargs` of the library/program helpers: an insertion-ordered
association list from keyword (e.g. `SOURCES`) to a list of targets. -/
abbrev Kwargs := List (Str × List Str)

/-- The `for k in kwargs` loop of `make_add_to_LTLIBRARIES`: each
non-empty entry contributes a blank line and a
`<libname with dashes rewritten>_la_<keyword>` declaration; empty entries
are skipped by the `continue`. -/
def ltlib_kwargs_block (libname : Str) : Kwargs → Str
  | [] => []
  | (k, v) :: rest =>
    (if v = [] then []
     else "\n".data
       ++ basic_maker_string (pyReplaceChar '-' '_' libname ++ "_la_".data ++ k) "=".data v)
    ++ ltlib_kwargs_block libname rest

/-- `maker.make_add_to_LTLIBRARIES(libname, LT_prefix, **kwargs)`. -/
def make_add_to_LTLIBRARIES (libname LTpre : Str) (kwargs : Kwargs) : Str :=
  basic_maker_string (LTpre ++ "_LTLIBRARIES".data) "+=".data [libname ++ ".la".data]
    ++ ltlib_kwargs_block libname kwargs

/-- The `for k in kwargs` loop of `make_add_to_PROGRAMS`; empty entries
are skipped by the `continue`. -/
def programs_kwargs_block (program_name : Str) : Kwargs → Str
  | [] => []
  | (k, v) :: rest =>
    (if v = [] then []
     else "\n".data
       ++ basic_maker_string (pyReplaceChar '-' '_' program_name ++ "_".data ++ k) "=".data v)
    ++ programs_kwargs_block program_name rest

/-- `maker.make_add_to_PROGRAMS(program_name, PROGRAMS_prefix, **kwargs)`. -/
def make_add_to_PROGRAMS (program_name PROGRAMSpre : Str) (kwargs : Kwargs) : Str :=
  basic_maker_string (PROGRAMSpre ++ "_PROGRAMS".data) "+=".data [program_name]
    ++ programs_kwargs_block program_name kwargs

/-- `maker.make_add_to_EXTRA_DIST(files)`. -/
def make_add_to_EXTRA_DIST (files : List Str) : Str :=
  if files = [] then [] else basic_maker_string "EXTRA_DIST".data "+=".data files

/-- `maker.make_HEADERS(includedir, files)`: the install-directory
variable line followed by the `_include_HEADERS` declaration.  Note that
the declaration is emitted whether or not `files` is empty. -/
def make_HEADERS (includedir : Str) (files : List Str) : Str :=
  pyReplaceChar '/' '_' includedir ++ "_includedir=".data
    ++ osPathJoin "$(includedir)".data includedir
    ++ "\n".data
    ++ basic_maker_string (pyReplaceChar '/' '_' includedir ++ "_include_HEADERS".data)
         "=".data files

/-! ## maker.py: extension classification -/

/-- `maker.header_extensions()`. -/
def header_extensions : List Str := [".h".data, ".hh".data, ".hpp".data]

/-- `maker.source_extensions()`. -/
def source_extensions : List Str := [".c".data, ".cc".data, ".cxx".data, ".cpp".data]

/-- `maker.has_header_extension(filepath)`: the loop
`for ext in header_extensions(): if filepath.endswith(ext): return True`. -/
def has_header_extension (filepath : Str) : Bool :=
  header_extensions.any (fun ext => pyEndsWith filepath ext)

/-- `maker.has_source_extension(filepath)`. -/
def has_source_extension (filepath : Str) : Bool :=
  source_extensions.any (fun ext => pyEndsWith filepath ext)

/-! ## maker.py: the git oracle

The working directory, the repository-root query and the tracked-file
listing are external collaborators of the program (GitPython, the
`git ls-tree` subprocess and `os.getcwd`).  They enter the embedding as
the fields of an environment record. -/

/-- The external environment seen by the git helpers of `maker.py`:
`cwd` is `os.getcwd()`, `rootOf` is the repository root that GitPython
reports for a path, `relpath` is `os.path.relpath(path, start)`, and
`tracked` is the line list returned by
`git ls-tree --full-tree -r --name-only HEAD`. -/
structure GitEnv where
  cwd : Str
  rootOf : Str → Str
  relpath : Str → Str → Str
  tracked : List Str

/-- `maker.git_root(path)`. -/
def git_root (g : GitEnv) (path : Str) : Str := g.rootOf path

/-- `maker.all_files_tracked_by_git()`. -/
def all_files_tracked_by_git (g : GitEnv) : List Str := g.tracked

/-- The Boolean result of `maker.relative_filepath_is_tracked_by_git`:
`os.path.relpath(filename, git_root(cwd)) in all_files_tracked_by_git()`.
(The cache bookkeeping of the decorated function is modelled separately
by `relative_filepath_is_tracked_by_git_stateful`; the `or True` in the
source makes the root used here always the freshly resolved one.) -/
def relative_filepath_is_tracked_by_git (g : GitEnv) (filename : Str) : Bool :=
  decide (g.relpath filename (git_root g g.cwd) ∈ all_files_tracked_by_git g)

/-- The cache state attached to `relative_filepath_is_tracked_by_git` by
the `static_vars` decorator, together with a count of how many times the
external root resolution `git_root` has been performed. -/
structure RootCache where
  cached_roots : List (Str × Str)
  resolve_count : Nat

/-- Python dict assignment `d[k] = v`: any previous binding of `k` is
replaced. -/
def dictInsert (c : List (Str × Str)) (k v : Str) : List (Str × Str) :=
  (k, v) :: c.eraseP (fun p => p.1 == k)

/-- One call of `maker.relative_filepath_is_tracked_by_git(filename)`
with its cache bookkeeping: the guard in the source is literally
`if cwd not in cached_roots or True`, so the branch that resolves the
root (and bumps `resolve_count` in this model) is taken on every call. -/
def relative_filepath_is_tracked_by_git_stateful (g : GitEnv) (st : RootCache)
    (filename : Str) : Bool × RootCache :=
  let cwd := g.cwd
  let st₁ :=
    if (st.cached_roots.lookup cwd).isNone || true then
      { cached_roots := dictInsert st.cached_roots cwd (git_root g cwd),
        resolve_count := st.resolve_count + 1 }
    else st
  let root := (st₁.cached_roots.lookup cwd).getD []
  (decide (g.relpath filename root ∈ all_files_tracked_by_git g), st₁)

/-- `maker.purge_untracked_files(file_list)`. -/
def purge_untracked_files (g : GitEnv) (file_list : List Str) : List Str :=
  file_list.filter (fun f => relative_filepath_is_tracked_by_git g f)

/-! ## implementation.py: filesystem model and the tree walkers

The filesystem is modelled as a finite list of directories, each paired
with the regular files it directly contains, in listing order. -/

/-- A directory tree: each entry is a directory path together with the
regular files in it, in the order `os.listdir` reports them. -/
abbrev FS := List (Str × List Str)

/-- `os.listdir(d)` restricted to regular files (the `os.path.isfile`
filter applied by `make_include`). -/
def os_listdir (fs : FS) (d : Str) : List Str :=
  ((fs.find? (fun e => e.1 == d)).map (fun e => e.2)).getD []

/-- `os.walk(root)`: the directories of the tree lying under `root`,
i.e. those whose path extends the root's. -/
def os_walk (fs : FS) (root : Str) : FS :=
  fs.filter (fun e => decide (root <+: e.1))

/-- `implementation.is_extensionless_Eigen_header(filepath)`: the parent
directory from `os.path.split` equals `include/casm/external/Eigen`. -/
def is_extensionless_Eigen_header (filepath : Str) : Bool :=
  decide (osPathSplitHead filepath = "include/casm/external/Eigen".data)

/-- The filter predicate of `make_include`'s `only_header_files` list:
`is_extensionless_Eigen_header(f) or has_header_extension(f)`. -/
def include_header_filter (f : Str) : Bool :=
  is_extensionless_Eigen_header f || has_header_extension f

/-- The `only_header_files` local of
`implementation.make_include(includeable_path)`: the directory listing
joined onto the path, restricted to tracked files, restricted to
headers. -/
def make_include_header_files (g : GitEnv) (fs : FS) (includeable_path : Str) : List Str :=
  let available_files := (os_listdir fs includeable_path).map
    (fun f => osPathJoin includeable_path f)
  let only_tracked_files := purge_untracked_files g available_files
  only_tracked_files.filter include_header_filter

/-- `implementation.make_include(includeable_path)`: the header
declaration for one directory, with the install path obtained by
dropping the leading `include/` (eight characters). -/
def make_include (g : GitEnv) (fs : FS) (includeable_path : Str) : Str :=
  make_HEADERS (includeable_path.drop 8) (make_include_header_files g fs includeable_path)

/-- One iteration of the loop of `make_recursive_include`: the fragment
for directory `d` is kept only when the `search_root` occurs in it as a
substring (`if search_root not in candidate: continue`), in which case a
divider follows it. -/
def recursive_include_contribution (g : GitEnv) (fs : FS) (search_root d : Str) : Str :=
  let candidate := make_include g fs d
  if pyIn search_root candidate then candidate ++ horizontal_divide else []

/-- `implementation.make_recursive_include(search_root)`. -/
def make_recursive_include (g : GitEnv) (fs : FS) (search_root : Str) : Str :=
  horizontal_divide
    ++ ((os_walk fs search_root).map
          (fun e => recursive_include_contribution g fs search_root e.1)).flatten

/-- The `source_files` local of `implementation.make_lib`: every file
with a source extension in any directory under `search_root`, joined
onto its directory.  No tracked-file filtering is applied here. -/
def make_lib_source_files (fs : FS) (search_root : Str) : List Str :=
  (os_walk fs search_root).flatMap
    (fun e => (e.2.filter has_source_extension).map (fun f => osPathJoin e.1 f))

/-- `implementation.make_lib(libname, search_root, additional_sources,
**kwargs)`. -/
def make_lib (fs : FS) (libname search_root : Str) (additional_sources : List Str)
    (kwargs : Kwargs) : Str :=
  make_add_to_LTLIBRARIES libname "lib".data
    (("SOURCES".data, make_lib_source_files fs search_root ++ additional_sources) :: kwargs)

/-! ## implementation.py: the run guard of main -/

/-- Outcome of the `git.Repo("./")` construction at the top of `main`:
a repository with its working directory, the
`git.exc.InvalidGitRepositoryError` the `except` clause catches, or any
other exception. -/
inductive RepoResult where
  | ok (working_dir : Str)
  | invalidGitRepo
  | otherFailure
deriving DecidableEq

/-- How a run of `main` ends before reaching the generation phase:
the `_exit_on_bad_run_directory` diagnostic-and-exit, an exception that
propagates uncaught, or normal continuation. -/
inductive RunOutcome where
  | abortDiagnostic
  | unhandledFault
  | proceed
deriving DecidableEq

/-- The guard at the top of `implementation.main`: an invalid repository
is caught and aborts with the diagnostic; a repository whose working
directory is not named `CASMcode-dev` likewise aborts; any other failure
of the repository query is not caught by the `except` clause and
propagates. -/
def main_guard : RepoResult → RunOutcome
  | .ok wd =>
      if os_path_basename wd = "CASMcode-dev".data then .proceed else .abortDiagnostic
  | .invalidGitRepo => .abortDiagnostic
  | .otherFailure => .unhandledFault

/-- The output paths `main` passes to `string_to_file`, in program
order (there are seven `string_to_file` calls in the source). -/
def main_output_targets : List Str :=
  [ osPathJoin (osPathJoin "apps".data "ccasm".data) "Makemodule.am".data,
    osPathJoin (osPathJoin "apps".data "completer".data) "Makemodule.am".data,
    osPathJoin (osPathJoin "tests".data "unit".data) "Makemodule.am".data,
    osPathJoin (osPathJoin "include".data "casm".data) "Makemodule.am".data,
    osPathJoin (osPathJoin "src".data "casm".data) "Makemodule.am".data,
    osPathJoin (osPathJoin "include".data "ccasm".data) "Makemodule.am".data,
    osPathJoin (osPathJoin "src".data "ccasm".data) "Makemodule.am".data ]

/-- The files `main` opens for writing, in order: the guard runs first,
and every `string_to_file` call comes after it, so a run that does not
proceed writes nothing. -/
def main_written_files (r : RepoResult) : List Str :=
  match main_guard r with
  | .proceed => main_output_targets
  | _ => []

/-! ## The layout the specification prescribes

For the refinement claim about `basic_maker_string` a second definition
renders the layout in the specification's words, to be compared with the
source's renderer. -/

/-- Modelled from the spec: the target block of a declaration, one
indented target per line in input order, every line but the last ending
in the continuation marker. -/
def claimed_layout_body : List Str → Str
  | [] => []
  | [t] => vertical_space ++ t
  | t :: t' :: ts => vertical_space ++ t ++ "\\\n".data ++ claimed_layout_body (t' :: ts)

/-- Modelled from the spec: a whole declaration as the specification
describes it, the header line followed by the target block. -/
def claimed_layout (var operator : Str) (targets : List Str) : Str :=
  var ++ " ".data ++ operator ++ " \\\n".data ++ claimed_layout_body targets

/-! ## Concrete fixtures used by counterexamples and witnesses -/

/-- A git environment in which nothing is tracked; `relpath` is the
identity in its first argument, as happens when the working directory is
the repository root. -/
def gTrackNone : GitEnv :=
  { cwd := "/repo".data, rootOf := fun _ => "/repo".data,
    relpath := fun f _ => f, tracked := [] }

/-- A git environment tracking exactly `a.txt`. -/
def gTrackA : GitEnv :=
  { cwd := "/repo".data, rootOf := fun _ => "/repo".data,
    relpath := fun f _ => f, tracked := ["a.txt".data] }

/-- A git environment tracking exactly `include/casm/x.hpp`. -/
def gTrackHpp : GitEnv :=
  { cwd := "/repo".data, rootOf := fun _ => "/repo".data,
    relpath := fun f _ => f, tracked := ["include/casm/x.hpp".data] }

/-- A tree with a single untracked source file under `src/casm`. -/
def fsLibStray : FS := [("src/casm".data, ["untracked.cpp".data])]

/-- A tree in which a subdirectory of the search root is itself named
`include/casm`, and no directory holds any file. -/
def fsEigenNest : FS :=
  [("include/casm".data, []), ("include/casm/include/casm".data, [])]

/-- A tree whose only directory `include/casm` holds the single file
`x.hpp`. -/
def fsOneHpp : FS := [("include/casm".data, ["x.hpp".data])]

/-- A tree whose only directory `include/casm` is empty. -/
def fsEmptyDir : FS := [("include/casm".data, [])]

/-- The fresh cache of the `static_vars` decorator: no roots resolved
yet. -/
def cacheFresh : RootCache := { cached_roots := [], resolve_count := 0 }

/-! ## General helper lemmas -/

theorem infix_append_left {α : Type} {u v : List α} (w : List α) (h : u <:+: v) :
    u <:+: v ++ w := by
  obtain ⟨s, t, rfl⟩ := h
  exact ⟨s, t ++ w, by simp⟩

theorem infix_append_right {α : Type} {u w : List α} (v : List α) (h : u <:+: w) :
    u <:+: v ++ w := by
  obtain ⟨s, t, rfl⟩ := h
  exact ⟨v ++ s, t, by simp⟩

theorem infix_of_starts {α : Type} {u v : List α} (h : u <+: v) : u <:+: v := by
  obtain ⟨t, rfl⟩ := h
  exact ⟨[], t, by simp⟩

theorem infix_of_ends {α : Type} {u v : List α} (h : u <:+ v) : u <:+: v := by
  obtain ⟨s, rfl⟩ := h
  exact ⟨s, [], by simp⟩

theorem infix_flatten_map {α : Type} (f : α → Str) {x : α} :
    ∀ {l : List α}, x ∈ l → f x <:+: (l.map f).flatten := by
  intro l hx
  induction l with
  | nil => cases hx
  | cons a l ih =>
    rcases List.mem_cons.1 hx with h | h
    · subst h
      exact infix_append_left _ (infix_of_starts ⟨[], by simp⟩)
    · exact infix_append_right _ (ih h)

/-! ## Structure lemmas about basic_maker_string -/

theorem bms_entry_starts (last? : Option Str) (t : Str) :
    (vertical_space ++ t) <+: bms_entry last? t :=
  ⟨(if some t = last? then [] else "\\\n".data), by simp [bms_entry]⟩

theorem target_infix_bms (var op : Str) {ts : List Str} {t : Str} (h : t ∈ ts) :
    (vertical_space ++ t) <:+: basic_maker_string var op ts :=
  infix_append_right _
    ((infix_of_starts (bms_entry_starts ts.getLast? t)).trans
      (infix_flatten_map (bms_entry ts.getLast?) h))

theorem kw_decl_starts (var : Str) (ts : List Str) :
    (var ++ " = \\\n".data) <+: basic_maker_string var "=".data ts := by
  have e : (" = \\\n").data = " ".data ++ "=".data ++ " \\\n".data := rfl
  exact ⟨(ts.map (bms_entry ts.getLast?)).flatten, by simp [basic_maker_string, e]⟩

/-! ## Lemmas about the kwargs loops -/

theorem ltlib_block_drops_empty (libname : Str) (kwargs : Kwargs) :
    ltlib_kwargs_block libname kwargs
      = ltlib_kwargs_block libname (kwargs.filter (fun kv => !kv.2.isEmpty)) := by
  induction kwargs with
  | nil => rfl
  | cons e rest ih =>
    obtain ⟨k, v⟩ := e
    by_cases hv : v = []
    · subst hv
      simpa [ltlib_kwargs_block, List.filter_cons] using ih
    · simp [ltlib_kwargs_block, List.filter_cons, hv, List.isEmpty_iff, ih]

theorem programs_block_drops_empty (program_name : Str) (kwargs : Kwargs) :
    programs_kwargs_block program_name kwargs
      = programs_kwargs_block program_name (kwargs.filter (fun kv => !kv.2.isEmpty)) := by
  induction kwargs with
  | nil => rfl
  | cons e rest ih =>
    obtain ⟨k, v⟩ := e
    by_cases hv : v = []
    · subst hv
      simpa [programs_kwargs_block, List.filter_cons] using ih
    · simp [programs_kwargs_block, List.filter_cons, hv, List.isEmpty_iff, ih]

theorem ltlib_block_decl_occurs (libname : Str) {kwargs : Kwargs} {k : Str} {v : List Str}
    (h : (k, v) ∈ kwargs) (hv : v ≠ []) :
    (pyReplaceChar '-' '_' libname ++ "_la_".data ++ k ++ " = \\\n".data)
      <:+: ltlib_kwargs_block libname kwargs := by
  induction kwargs with
  | nil => cases h
  | cons e rest ih =>
    rcases List.mem_cons.1 h with he | he
    · subst he
      have h1 := kw_decl_starts (pyReplaceChar '-' '_' libname ++ "_la_".data ++ k) v
      have h2 : (pyReplaceChar '-' '_' libname ++ "_la_".data ++ k ++ " = \\\n".data)
          <:+: "\n".data
            ++ basic_maker_string (pyReplaceChar '-' '_' libname ++ "_la_".data ++ k)
                 "=".data v := by
        refine infix_append_right _ (infix_of_starts ?_)
        simpa [List.append_assoc] using h1
      simpa [ltlib_kwargs_block, hv] using infix_append_left _ h2
    · exact infix_append_right _ (ih he)

theorem programs_block_decl_occurs (program_name : Str) {kwargs : Kwargs} {k : Str}
    {v : List Str} (h : (k, v) ∈ kwargs) (hv : v ≠ []) :
    (pyReplaceChar '-' '_' program_name ++ "_".data ++ k ++ " = \\\n".data)
      <:+: programs_kwargs_block program_name kwargs := by
  induction kwargs with
  | nil => cases h
  | cons e rest ih =>
    rcases List.mem_cons.1 h with he | he
    · subst he
      have h1 := kw_decl_starts (pyReplaceChar '-' '_' program_name ++ "_".data ++ k) v
      have h2 : (pyReplaceChar '-' '_' program_name ++ "_".data ++ k ++ " = \\\n".data)
          <:+: "\n".data
            ++ basic_maker_string (pyReplaceChar '-' '_' program_name ++ "_".data ++ k)
                 "=".data v := by
        refine infix_append_right _ (infix_of_starts ?_)
        simpa [List.append_assoc] using h1
      simpa [programs_kwargs_block, hv] using infix_append_left _ h2
    · exact infix_append_right _ (ih he)

/-! ## The rendered layout under the no-duplicate-last condition -/

theorem bms_body_claimed :
    ∀ (ts : List Str), (∀ t ∈ ts.dropLast, some t ≠ ts.getLast?) →
      (ts.map (bms_entry ts.getLast?)).flatten = claimed_layout_body ts := by
  intro ts
  induction ts with
  | nil => intro _; rfl
  | cons t rest ih =>
    intro h
    cases rest with
    | nil => simp [bms_entry, claimed_layout_body]
    | cons t' ts' =>
      have hlast : (t :: t' :: ts').getLast? = (t' :: ts').getLast? :=
        List.getLast?_cons_cons
      have hmem : t ∈ (t :: t' :: ts').dropLast := by
        show t ∈ t :: (t' :: ts').dropLast
        exact List.mem_cons_self t _
      have ht : some t ≠ (t' :: ts').getLast? := by
        have := h t hmem
        rwa [hlast] at this
      have hrest : ∀ u ∈ (t' :: ts').dropLast, some u ≠ (t' :: ts').getLast? := by
        intro u hu
        have hu' : u ∈ (t :: t' :: ts').dropLast := by
          show u ∈ t :: (t' :: ts').dropLast
          exact List.mem_cons_of_mem t hu
        have := h u hu'
        rwa [hlast] at this
      have hih := ih hrest
      show (bms_entry (t :: t' :: ts').getLast? t
          :: ((t' :: ts').map (bms_entry (t :: t' :: ts').getLast?))).flatten
        = claimed_layout_body (t :: t' :: ts')
      rw [hlast]
      show bms_entry (t' :: ts').getLast? t
          ++ ((t' :: ts').map (bms_entry (t' :: ts').getLast?)).flatten
        = claimed_layout_body (t :: t' :: ts')
      rw [hih]
      show vertical_space ++ t ++ (if some t = (t' :: ts').getLast? then [] else "\\\n".data)
          ++ claimed_layout_body (t' :: ts')
        = vertical_space ++ t ++ "\\\n".data ++ claimed_layout_body (t' :: ts')
      rw [if_neg ht]

/-! ## Claim theorems -/

/-- C3 (counterexample): `basic_maker_string` compares each target with
the *value* of the last target, so for the list `[a, a]` the first line
loses its continuation marker and merges with the last: the output has
two lines where the claimed layout has three. -/
theorem C3_counterexample :
    basic_maker_string "V".data "=".data ["a".data, "a".data]
      = "V = \\\n    a    a".data
  ∧ basic_maker_string "V".data "=".data ["a".data, "a".data]
      ≠ claimed_layout "V".data "=".data ["a".data, "a".data] := by
  constructor
  · decide
  · decide

/-- C3 (amended): for any variable, operator and target list in which no
target before the last equals the last one, `basic_maker_string` renders
exactly the claimed layout: one header line `name operator \`, then one
indented target per line in input order, every line but the last ending
in the continuation marker. -/
theorem C3_basic_maker_string_layout (var op : Str) (ts : List Str)
    (h : ∀ t ∈ ts.dropLast, some t ≠ ts.getLast?) :
    basic_maker_string var op ts = claimed_layout var op ts := by
  unfold basic_maker_string claimed_layout
  rw [bms_body_claimed ts h]

/-- Witness for C3: the layout equation holds at the concrete
declaration `V = a b`. -/
theorem C3_witness :
    (∀ t ∈ (["a".data, "b".data] : List Str).dropLast,
        some t ≠ (["a".data, "b".data] : List Str).getLast?)
  ∧ basic_maker_string "V".data "=".data ["a".data, "b".data]
      = claimed_layout "V".data "=".data ["a".data, "b".data] :=
  ⟨by decide, C3_basic_maker_string_layout "V".data "=".data ["a".data, "b".data] (by decide)⟩

/-- C2 (counterexample): `make_HEADERS` with an empty file list still
emits the (dangling) `_include_HEADERS` declaration, so not every
higher-level helper omits declarations built from empty target lists. -/
theorem C2_counterexample :
    make_HEADERS "casm".data []
      = "casm_includedir=$(includedir)/casm\ncasm_include_HEADERS = \\\n".data
  ∧ pyIn "casm_include_HEADERS".data (make_HEADERS "casm".data []) = true := by
  constructor
  · decide
  · decide

/-- C2 (amended): the library and program helpers skip every keyword
whose target list is empty (their output equals the output on the
kwargs with empty entries removed), and `make_add_to_EXTRA_DIST` of an
empty list emits nothing; `make_HEADERS`, by contrast, always ends in
its `_include_HEADERS` declaration even for an empty file list. -/
theorem C2_empty_lists :
    (∀ (l p : Str) (kwargs : Kwargs),
        make_add_to_LTLIBRARIES l p kwargs
          = make_add_to_LTLIBRARIES l p (kwargs.filter (fun kv => !kv.2.isEmpty)))
  ∧ (∀ (n p : Str) (kwargs : Kwargs),
        make_add_to_PROGRAMS n p kwargs
          = make_add_to_PROGRAMS n p (kwargs.filter (fun kv => !kv.2.isEmpty)))
  ∧ make_add_to_EXTRA_DIST [] = []
  ∧ (∀ includedir : Str,
        ("_include_HEADERS = \\\n".data <:+ make_HEADERS includedir [])) := by
  refine ⟨?_, ?_, rfl, ?_⟩
  · intro l p kwargs
    unfold make_add_to_LTLIBRARIES
    rw [ltlib_block_drops_empty l kwargs]
  · intro n p kwargs
    unfold make_add_to_PROGRAMS
    rw [programs_block_drops_empty n kwargs]
  · intro inc
    have e : ("_include_HEADERS = \\\n").data
        = "_include_HEADERS".data ++ " ".data ++ "=".data ++ " \\\n".data := rfl
    refine ⟨pyReplaceChar '/' '_' inc ++ "_includedir=".data
        ++ osPathJoin "$(includedir)".data inc ++ "\n".data
        ++ pyReplaceChar '/' '_' inc, ?_⟩
    simp [make_HEADERS, basic_maker_string, e]

/-- C5: purging untracked files is a sublist-preserving filter, every
survivor passes the tracked test against the git listing, and the
operation is idempotent. -/
theorem C5_purge_untracked_properties (g : GitEnv) (l : List Str) :
    List.Sublist (purge_untracked_files g l) l
  ∧ (∀ f ∈ purge_untracked_files g l, relative_filepath_is_tracked_by_git g f = true)
  ∧ purge_untracked_files g (purge_untracked_files g l)
      = purge_untracked_files g l := by
  refine ⟨List.filter_sublist l, fun f hf => List.of_mem_filter hf, ?_⟩
  simp [purge_untracked_files, List.filter_filter]

/-- Witness for C5 at a two-file list with one tracked file. -/
theorem C5_witness :
    List.Sublist (purge_untracked_files gTrackA ["a.txt".data, "b.txt".data])
        ["a.txt".data, "b.txt".data]
  ∧ relative_filepath_is_tracked_by_git gTrackA "a.txt".data = true
  ∧ purge_untracked_files gTrackA
        (purge_untracked_files gTrackA ["a.txt".data, "b.txt".data])
      = purge_untracked_files gTrackA ["a.txt".data, "b.txt".data] :=
  ⟨(C5_purge_untracked_properties gTrackA ["a.txt".data, "b.txt".data]).1,
   (C5_purge_untracked_properties gTrackA ["a.txt".data, "b.txt".data]).2.1
      "a.txt".data (by decide),
   (C5_purge_untracked_properties gTrackA ["a.txt".data, "b.txt".data]).2.2⟩

/-- C6: the header extensions are exactly `.h`, `.hh`, `.hpp` as path
suffixes; the source extensions are exactly `.c`, `.cc`, `.cxx`, `.cpp`;
and the header classification used by `make_include` accepts a path
exactly when it has a header extension or its parent directory is the
vendored `include/casm/external/Eigen` directory. -/
theorem C6_extension_classification :
    (∀ p : Str, has_header_extension p = true ↔
        (".h".data <:+ p ∨ ".hh".data <:+ p ∨ ".hpp".data <:+ p))
  ∧ has_header_extension "foo.hpp".data = true
  ∧ has_header_extension "foo.cpp".data = false
  ∧ (∀ p : Str, has_source_extension p = true ↔
        (".c".data <:+ p ∨ ".cc".data <:+ p ∨ ".cxx".data <:+ p ∨ ".cpp".data <:+ p))
  ∧ has_source_extension "foo.cxx".data = true
  ∧ (∀ p : Str, include_header_filter p = true ↔
        (osPathSplitHead p = "include/casm/external/Eigen".data
          ∨ has_header_extension p = true)) := by
  refine ⟨?_, by decide, by decide, ?_, by decide, ?_⟩
  · intro p
    simp [has_header_extension, header_extensions, pyEndsWith]
  · intro p
    simp [has_source_extension, source_extensions, pyEndsWith]
  · intro p
    simp [include_header_filter, is_extensionless_Eigen_header]

/-- C7: `main` aborts with the human-readable diagnostic exactly when
the repository query reports no valid repository or the repository's
top-level directory is not named `CASMcode-dev`; any other failure of
the query propagates as an unhandled fault. -/
theorem C7_abort_conditions :
    (∀ r : RepoResult,
        main_guard r = RunOutcome.abortDiagnostic ↔
          (r = RepoResult.invalidGitRepo
            ∨ ∃ wd, r = RepoResult.ok wd
                ∧ os_path_basename wd ≠ "CASMcode-dev".data))
  ∧ main_guard RepoResult.otherFailure = RunOutcome.unhandledFault := by
  refine ⟨?_, rfl⟩
  intro r
  cases r with
  | ok wd =>
    by_cases h : os_path_basename wd = "CASMcode-dev".data <;> simp [main_guard, h]
  | invalidGitRepo => simp [main_guard]
  | otherFailure => simp [main_guard]

/-- C8: for every non-empty keyword entry, the emitted variable name is
the library or program name joined to the keyword with an underscore
(with the extra `la` segment for libraries), the name having all its
hyphens rewritten to underscores; the rewriting removes every hyphen. -/
theorem C8_variable_name_joining :
    (∀ (libname LTpre k : Str) (v : List Str) (kwargs : Kwargs),
        (k, v) ∈ kwargs → v ≠ [] →
        (pyReplaceChar '-' '_' libname ++ "_la_".data ++ k ++ " = \\\n".data)
          <:+: make_add_to_LTLIBRARIES libname LTpre kwargs)
  ∧ (∀ (name Ppre k : Str) (v : List Str) (kwargs : Kwargs),
        (k, v) ∈ kwargs → v ≠ [] →
        (pyReplaceChar '-' '_' name ++ "_".data ++ k ++ " = \\\n".data)
          <:+: make_add_to_PROGRAMS name Ppre kwargs)
  ∧ (∀ s : Str, '-' ∉ pyReplaceChar '-' '_' s)
  ∧ pyReplaceChar '-' '_' "casm-lib".data = "casm_lib".data := by
  refine ⟨?_, ?_, ?_, by decide⟩
  · intro libname LTpre k v kwargs hk hv
    exact infix_append_right _ (ltlib_block_decl_occurs libname hk hv)
  · intro name Ppre k v kwargs hk hv
    exact infix_append_right _ (programs_block_decl_occurs name hk hv)
  · intro s hmem
    simp only [pyReplaceChar] at hmem
    obtain ⟨a, -, ha⟩ := List.mem_map.1 hmem
    by_cases h : a = '-'
    · rw [if_pos h] at ha
      exact absurd ha (by decide)
    · rw [if_neg h] at ha
      exact h ha

/-- Witness for C8: the hyphenated library name `casm-lib` with a
one-entry SOURCES keyword yields the variable `casm_lib_la_SOURCES`. -/
theorem C8_witness :
    ("SOURCES".data, ["a.cpp".data]) ∈ ([("SOURCES".data, ["a.cpp".data])] : Kwargs)
  ∧ (pyReplaceChar '-' '_' "casm-lib".data ++ "_la_".data ++ "SOURCES".data
        ++ " = \\\n".data)
      <:+: make_add_to_LTLIBRARIES "casm-lib".data "check".data
             [("SOURCES".data, ["a.cpp".data])] :=
  ⟨by decide,
   C8_variable_name_joining.1 "casm-lib".data "check".data "SOURCES".data
     ["a.cpp".data] [("SOURCES".data, ["a.cpp".data])] (by decide) (by decide)⟩

/-- C10 (counterexample): `main` writes seven fixed output files, not
six: a run that proceeds opens seven paths. -/
theorem C10_counterexample :
    main_output_targets.length = 7 ∧ ¬ main_output_targets.length = 6 := by
  constructor
  · rfl
  · decide

/-- C10 (amended): the wrong-checkout guard runs before any output file
is opened, so an aborting run writes none of the seven fixed output
files. -/
theorem C10_abort_writes_nothing :
    (∀ r : RepoResult,
        main_guard r = RunOutcome.abortDiagnostic → main_written_files r = [])
  ∧ main_output_targets.length = 7 := by
  refine ⟨?_, rfl⟩
  intro r h
  unfold main_written_files
  rw [h]

/-- Witness for C10 on the invalid-repository abort path. -/
theorem C10_witness :
    main_guard RepoResult.invalidGitRepo = RunOutcome.abortDiagnostic
  ∧ main_written_files RepoResult.invalidGitRepo = [] :=
  ⟨rfl, C10_abort_writes_nothing.1 RepoResult.invalidGitRepo rfl⟩

/-- C4: the guard in the source reads
`if cwd not in cached_roots or True`, which is always true, so the
external root resolution runs again on every call: after a first call
has populated the cache for the working directory, a second call with
the same working directory still resolves the root a second time
instead of using the cached value. -/
theorem C4_root_resolved_on_every_call :
    ((relative_filepath_is_tracked_by_git_stateful gTrackNone cacheFresh
        "f".data).2.cached_roots.lookup gTrackNone.cwd).isSome = true
  ∧ (relative_filepath_is_tracked_by_git_stateful gTrackNone
        (relative_filepath_is_tracked_by_git_stateful gTrackNone cacheFresh
          "f".data).2
        "f".data).2.resolve_count = 2 := by
  constructor
  · rfl
  · rfl

/-- C1 (counterexample): `make_lib` consults no tracking information at
all, so an untracked source file under the search root is emitted into
the library's SOURCES declaration: `src/casm/untracked.cpp` appears in
the fragment although the git listing tracks nothing. -/
theorem C1_counterexample :
    ("src/casm/untracked.cpp".data
        <:+: make_lib fsLibStray "libcasm".data "src/casm".data [] [])
  ∧ relative_filepath_is_tracked_by_git gTrackNone "src/casm/untracked.cpp".data
      = false := by
  constructor
  · decide
  · rfl

/-- C1 (amended): `make_lib` applies no tracked-file filtering: every
file with a source extension in a directory under the search root
enters its SOURCES list, for any state of the git oracle; the
tracked-only guarantee holds for the helpers that call
`purge_untracked_files`, such as the header list of `make_include`,
whose every element passes the tracked test. -/
theorem C1_make_lib_ignores_tracking :
    (∀ (fs : FS) (root d : Str) (files : List Str) (f : Str),
        (d, files) ∈ fs → root <+: d → f ∈ files → has_source_extension f = true →
        osPathJoin d f ∈ make_lib_source_files fs root)
  ∧ (∀ (g : GitEnv) (fs : FS) (p f : Str),
        f ∈ make_include_header_files g fs p →
        relative_filepath_is_tracked_by_git g f = true) := by
  constructor
  · intro fs root d files f hmem hpre hf hsrc
    unfold make_lib_source_files
    refine List.mem_flatMap.2 ⟨(d, files), ?_, ?_⟩
    · exact List.mem_filter.2 ⟨hmem, decide_eq_true hpre⟩
    · exact List.mem_map.2 ⟨f, List.mem_filter.2 ⟨hf, hsrc⟩, rfl⟩
  · intro g fs p f hf
    unfold make_include_header_files at hf
    exact List.of_mem_filter (List.mem_filter.1 hf).1

/-- Witness for C1: the untracked source file of the stray tree is
collected by `make_lib`, and the one header `make_include` finds in the
one-header tree is tracked. -/
theorem C1_witness :
    osPathJoin "src/casm".data "untracked.cpp".data
        ∈ make_lib_source_files fsLibStray "src/casm".data
  ∧ relative_filepath_is_tracked_by_git gTrackHpp "include/casm/x.hpp".data
      = true :=
  ⟨C1_make_lib_ignores_tracking.1 fsLibStray "src/casm".data "src/casm".data
      ["untracked.cpp".data] "untracked.cpp".data
      (by decide) (by decide) (by decide) (by decide),
   C1_make_lib_ignores_tracking.2 gTrackHpp fsOneHpp "include/casm".data
      "include/casm/x.hpp".data (by decide)⟩

/-- C9 (counterexample): the skip test of `make_recursive_include` is a
substring check of the search root against the rendered fragment, so a
directory whose own path re-contains the search root slips through even
with zero tracked header files: under the root `include/casm`, the
empty directory `include/casm/include/casm` contributes a dangling
`casm_include_casm_include_HEADERS` declaration. -/
theorem C9_counterexample :
    make_include_header_files gTrackNone fsEigenNest
        "include/casm/include/casm".data = []
  ∧ ("casm_include_casm_include_HEADERS".data
        <:+: make_recursive_include gTrackNone fsEigenNest "include/casm".data) := by
  constructor
  · rfl
  · decide

/-- C9 (amended): a walked directory with zero tracked header files
contributes nothing provided its (dangling) rendered fragment does not
contain the search root as a substring; and a walked directory whose
tracked header list is exactly one file contributes exactly one
install-directory line plus one single-entry HEADERS declaration, which
lands in the concatenated output. -/
theorem C9_header_walk :
    (∀ (g : GitEnv) (fs : FS) (root d : Str),
        make_include_header_files g fs d = [] →
        pyIn root (make_HEADERS (d.drop 8) []) = false →
        recursive_include_contribution g fs root d = [])
  ∧ (∀ (g : GitEnv) (fs : FS) (root d p : Str),
        d ∈ (os_walk fs root).map Prod.fst →
        make_include_header_files g fs d = [osPathJoin d p] →
        d <+: osPathJoin d p →
        (make_include g fs d
            = pyReplaceChar '/' '_' (d.drop 8) ++ "_includedir=".data
                ++ osPathJoin "$(includedir)".data (d.drop 8) ++ "\n".data
                ++ pyReplaceChar '/' '_' (d.drop 8) ++ "_include_HEADERS = \\\n".data
                ++ vertical_space ++ osPathJoin d p
          ∧ (make_include g fs d ++ horizontal_divide)
              <:+: make_recursive_include g fs root)) := by
  constructor
  · intro g fs root d h1 h2
    simp [recursive_include_contribution, make_include, h1, h2]
  · intro g fs root d p hw hh hdp
    have hexp : make_include g fs d
        = pyReplaceChar '/' '_' (d.drop 8) ++ "_includedir=".data
            ++ osPathJoin "$(includedir)".data (d.drop 8) ++ "\n".data
            ++ pyReplaceChar '/' '_' (d.drop 8) ++ "_include_HEADERS = \\\n".data
            ++ vertical_space ++ osPathJoin d p := by
      unfold make_include
      rw [hh]
      have e : ("_include_HEADERS = \\\n").data
          = "_include_HEADERS".data ++ " ".data ++ "=".data ++ " \\\n".data := rfl
      simp [make_HEADERS, basic_maker_string, bms_entry, e]
    refine ⟨hexp, ?_⟩
    obtain ⟨e, he, hed⟩ := List.mem_map.1 hw
    have hroot : root <+: d := by
      have he' := he
      unfold os_walk at he'
      have hdec := List.of_mem_filter he'
      simp only [] at hdec
      rw [hed] at hdec
      exact of_decide_eq_true hdec
    have hsuf : osPathJoin d p <:+ make_include g fs d := by
      rw [hexp]
      exact ⟨_, rfl⟩
    have hinf : root <:+: make_include g fs d :=
      (infix_of_starts (hroot.trans hdp)).trans (infix_of_ends hsuf)
    have hcond : pyIn root (make_include g fs d) = true := decide_eq_true hinf
    have hcontrib : recursive_include_contribution g fs root d
        = make_include g fs d ++ horizontal_divide := by
      simp [recursive_include_contribution, hcond]
    have hfe : (fun x => recursive_include_contribution g fs root x.1) e
        = make_include g fs d ++ horizontal_divide := by
      show recursive_include_contribution g fs root e.1 = _
      rw [hed, hcontrib]
    have hflat := infix_flatten_map
      (fun x => recursive_include_contribution g fs root x.1) he
    rw [hfe] at hflat
    unfold make_recursive_include
    exact infix_append_right _ hflat

/-- Witness for C9: in the empty one-directory tree the zero-header
directory is skipped, and in the one-`x.hpp` tree the directory
`include/casm` contributes its single-entry fragment to the output. -/
theorem C9_witness :
    recursive_include_contribution gTrackNone fsEmptyDir "include/casm".data
        "include/casm".data = []
  ∧ (make_include gTrackHpp fsOneHpp "include/casm".data ++ horizontal_divide)
      <:+: make_recursive_include gTrackHpp fsOneHpp "include/casm".data :=
  ⟨C9_header_walk.1 gTrackNone fsEmptyDir "include/casm".data "include/casm".data
      (by decide) (by decide),
   (C9_header_walk.2 gTrackHpp fsOneHpp "include/casm".data "include/casm".data
      "x.hpp".data (by decide) (by decide) (by decide)).2⟩
